import Mathlib

/-!
Shallow embedding of src/main.py: a FastAPI weather relay.  The program
exposes two endpoints, a constant root endpoint and a weather endpoint
that forwards a (location, date) pair to the Visual Crossing timeline
API through a fetch function memoised with functools.lru_cache(500).

The embedding models the upstream network as a function from the request
URL to either a transport fault or an HTTP response, and each handler as
an explicit state transformer over the lru_cache state.  Every fetch
returns, besides its result, the updated cache and the list of upstream
URLs it requested, so that cache-hit behaviour (no upstream traffic) is
expressible.
-/

/-- JSON values: the type of response.json() results and of the bodies
returned by the Python handlers (Python dicts are modelled as ordered
association lists). -/
inductive Json where
  | null : Json
  | bool : Bool → Json
  | num : Int → Json
  | str : String → Json
  | arr : List Json → Json
  | obj : List (String × Json) → Json

/-- A transport-level fault raised by requests.get (connection failure,
timeout, DNS error); fetch_weather does not catch it. -/
structure TransportError where
  msg : String
deriving DecidableEq

/-- An upstream HTTP response as seen through the requests library:
status code, response headers, raw text body, and the JSON parse of the
body (the value response.json() would return when called). -/
structure Response where
  status_code : Nat
  headers : List (String × String)
  text : String
  json : Json

/-- Python dict-style access with a default: headers.get(name, dflt). -/
def headersGet (headers : List (String × String)) (name dflt : String) : String :=
  match headers.find? (fun p => decide (p.1 = name)) with
  | some p => p.2
  | none => dflt

def substrInAux (needle : List Char) : List Char → Bool
  | [] => needle.isEmpty
  | c :: rest => needle.isPrefixOf (c :: rest) || substrInAux needle rest

/-- Python substring containment on strings: needle in hay. -/
def substrIn (needle hay : String) : Bool :=
  substrInAux needle.data hay.data

/-- Cache keys are the exact argument tuples of fetch_weather. -/
abbrev CacheKey := String × String

/-- The functools.lru_cache state: entries listed most-recently-used
first, so the least-recently-used entry is the last element. -/
structure Cache where
  entries : List (CacheKey × Json)

/-- maxsize=500 of the lru_cache decorator. -/
def CACHE_MAXSIZE : Nat := 500

/-- The cache at process start. -/
def emptyCache : Cache := ⟨[]⟩

/-- Key membership test of the cache, by exact tuple equality. -/
def Cache.lookup (c : Cache) (k : CacheKey) : Option Json :=
  (c.entries.find? (fun p => decide (p.1 = k))).map Prod.snd

/-- On a hit, lru_cache moves the entry to the most-recently-used slot;
all other entries keep their relative order. -/
def Cache.promote (c : Cache) (k : CacheKey) (v : Json) : Cache :=
  ⟨(k, v) :: c.entries.eraseP (fun p => decide (p.1 = k))⟩

/-- On a miss, lru_cache stores the new entry at the most-recently-used
slot and, when the size would exceed maxsize, drops the
least-recently-used entry (the last element of the list). -/
def Cache.insertNew (c : Cache) (k : CacheKey) (v : Json) : Cache :=
  ⟨((k, v) :: c.entries).take CACHE_MAXSIZE⟩

/-- The error record fetch_weather builds for a non-200 or non-JSON
upstream response: a dict of the raw body text and the status code. -/
def errorRecord (text : String) (status : Nat) : Json :=
  Json.obj [("error", Json.str text), ("status", Json.num (status : Int))]

/-- fetch_weather from src/main.py.  api_key is the VISUAL_CROSSING_API_KEY
environment value read once at process start; http models requests.get.
On a hit the stored value is returned with no upstream request; on a miss
the timeline URL is built by direct string interpolation and requested,
a 200 JSON response yields its parsed body, anything else yields an
error record, and the outcome is stored in the cache.  A transport fault
propagates and leaves the cache unchanged (lru_cache does not record
calls that raise). -/
def fetch_weather (api_key : String) (http : String → Except TransportError Response)
    (cache : Cache) (location date : String) :
    Except TransportError Json × Cache × List String :=
  match cache.lookup (location, date) with
  | some v => (Except.ok v, cache.promote (location, date) v, [])
  | none =>
    let url := "https://weather.visualcrossing.com/VisualCrossingWebServices/rest/services/timeline/"
      ++ location ++ "/" ++ date ++ "?unitGroup=metric&include=days&key=" ++ api_key
    match http url with
    | Except.error e => (Except.error e, cache, [url])
    | Except.ok resp =>
      let body :=
        if resp.status_code == 200 &&
            substrIn "application/json" (headersGet resp.headers "Content-Type" "") then
          resp.json
        else
          errorRecord resp.text resp.status_code
      (Except.ok body, cache.insertNew (location, date) body, [url])

/-- FastAPI responds with HTTP status 200 to a handler that returns a
value normally. -/
def FASTAPI_DEFAULT_STATUS : Nat := 200

/-- The GET /weather/{location}/{date} handler: it returns the
fetch_weather value as the JSON body of a response with the default
status; an uncaught transport fault escapes to the hosting layer. -/
def get_weather (api_key : String) (http : String → Except TransportError Response)
    (cache : Cache) (location date : String) :
    Except TransportError (Nat × Json) × Cache × List String :=
  match fetch_weather api_key http cache location date with
  | (Except.ok v, c, us) => (Except.ok (FASTAPI_DEFAULT_STATUS, v), c, us)
  | (Except.error e, c, us) => (Except.error e, c, us)

/-- The constant body of the GET / handler. -/
def rootBody : Json := Json.obj [("message", Json.str "API is running")]

/-- The GET / handler: it neither reads nor writes the cache. -/
def root (cache : Cache) : (Nat × Json) × Cache :=
  ((FASTAPI_DEFAULT_STATUS, rootBody), cache)

/-- Field presence test on a JSON object body. -/
def Json.hasKey : Json → String → Bool
  | Json.obj fields, k => fields.any (fun p => decide (p.1 = k))
  | _, _ => false

/-- The upstream URL fetch_weather builds on a miss, as a named
abbreviation for use in lemma statements. -/
def timelineURL (api_key location date : String) : String :=
  "https://weather.visualcrossing.com/VisualCrossingWebServices/rest/services/timeline/"
    ++ location ++ "/" ++ date ++ "?unitGroup=metric&include=days&key=" ++ api_key

theorem Cache.lookup_cons_self (k : CacheKey) (v : Json) (l : List (CacheKey × Json)) :
    Cache.lookup ⟨(k, v) :: l⟩ k = some v := by
  simp [Cache.lookup]

theorem fetch_weather_hit (api_key : String) (http : String → Except TransportError Response)
    (cache : Cache) (location date : String) (v : Json)
    (h : cache.lookup (location, date) = some v) :
    fetch_weather api_key http cache location date =
      (Except.ok v, cache.promote (location, date) v, []) := by
  simp [fetch_weather, h]

theorem fetch_weather_miss_fault (api_key : String)
    (http : String → Except TransportError Response)
    (cache : Cache) (location date : String) (e : TransportError)
    (h : cache.lookup (location, date) = none)
    (he : http (timelineURL api_key location date) = Except.error e) :
    fetch_weather api_key http cache location date =
      (Except.error e, cache, [timelineURL api_key location date]) := by
  simp only [timelineURL] at he
  simp [fetch_weather, timelineURL, h, he]

theorem fetch_weather_miss_ok (api_key : String)
    (http : String → Except TransportError Response)
    (cache : Cache) (location date : String) (resp : Response)
    (h : cache.lookup (location, date) = none)
    (hr : http (timelineURL api_key location date) = Except.ok resp) :
    fetch_weather api_key http cache location date =
      (let body :=
        if resp.status_code == 200 &&
            substrIn "application/json" (headersGet resp.headers "Content-Type" "") then
          resp.json
        else
          errorRecord resp.text resp.status_code
       (Except.ok body, cache.insertNew (location, date) body,
        [timelineURL api_key location date])) := by
  simp only [timelineURL] at hr
  simp [fetch_weather, timelineURL, h, hr]

theorem find?_eraseP_of_neg {α : Type} (p q : α → Bool) (l : List α)
    (hpq : ∀ x, p x = true → q x = false) :
    (l.eraseP p).find? q = l.find? q := by
  induction l with
  | nil => rfl
  | cons a t ih =>
    by_cases hp : p a
    · rw [List.eraseP_cons_of_pos hp, List.find?_cons_of_neg t]
      simp [hpq a hp]
    · rw [List.eraseP_cons_of_neg hp]
      by_cases hq : q a
      · rw [List.find?_cons_of_pos _ hq, List.find?_cons_of_pos _ hq]
      · rw [List.find?_cons_of_neg _ hq, List.find?_cons_of_neg _ hq, ih]

theorem find?_take_or {α : Type} (q : α → Bool) :
    ∀ (n : Nat) (l : List α),
      (l.take n).find? q = none ∨ (l.take n).find? q = l.find? q := by
  intro n
  induction n with
  | zero => intro l; left; rfl
  | succ m ih =>
    intro l
    cases l with
    | nil => left; rfl
    | cons a t =>
      rw [List.take_succ_cons]
      by_cases hq : q a
      · right
        rw [List.find?_cons_of_pos _ hq, List.find?_cons_of_pos _ hq]
      · rw [List.find?_cons_of_neg _ hq, List.find?_cons_of_neg _ hq]
        exact ih t

/-- After a fetch that completes with value v, the cache maps the
requested key to v. -/
theorem fetch_weather_post_lookup (api_key : String)
    (http : String → Except TransportError Response)
    (cache : Cache) (location date : String) (v : Json) (c₁ : Cache) (us : List String)
    (h : fetch_weather api_key http cache location date = (Except.ok v, c₁, us)) :
    c₁.lookup (location, date) = some v := by
  cases hl : cache.lookup (location, date) with
  | some w =>
    rw [fetch_weather_hit api_key http cache location date w hl] at h
    simp only [Prod.mk.injEq, Except.ok.injEq] at h
    obtain ⟨h1, h2, h3⟩ := h
    subst h1; subst h2
    exact Cache.lookup_cons_self _ _ _
  | none =>
    cases hh : http (timelineURL api_key location date) with
    | error e =>
      rw [fetch_weather_miss_fault api_key http cache location date e hl hh] at h
      exact absurd (congrArg Prod.fst h) (by simp)
    | ok resp =>
      rw [fetch_weather_miss_ok api_key http cache location date resp hl hh] at h
      simp only [Prod.mk.injEq, Except.ok.injEq] at h
      obtain ⟨h1, h2, h3⟩ := h
      subst h1; subst h2
      unfold Cache.insertNew CACHE_MAXSIZE
      rw [List.take_succ_cons]
      exact Cache.lookup_cons_self _ _ _

theorem fetch_weather_miss_state (api_key : String)
    (http : String → Except TransportError Response)
    (cache : Cache) (location date : String) (resp : Response)
    (h : cache.lookup (location, date) = none)
    (hr : http (timelineURL api_key location date) = Except.ok resp) :
    ∃ b, fetch_weather api_key http cache location date =
      (Except.ok b, cache.insertNew (location, date) b,
       [timelineURL api_key location date]) :=
  ⟨_, fetch_weather_miss_ok api_key http cache location date resp h hr⟩

/-- One fetch step either leaves a cached entry exactly as stored or
evicts it; it never alters the stored value. -/
theorem fetch_step_entry_cases (api_key : String)
    (http : String → Except TransportError Response)
    (c : Cache) (loc d : String) (k : CacheKey) (v : Json)
    (h : c.lookup k = some v) :
    ((fetch_weather api_key http c loc d).2.1).lookup k = some v ∨
    ((fetch_weather api_key http c loc d).2.1).lookup k = none := by
  cases hl : c.lookup (loc, d) with
  | some w =>
    rw [fetch_weather_hit api_key http c loc d w hl]
    dsimp only
    by_cases hk : (loc, d) = k
    · subst hk
      rw [h] at hl
      injection hl with hw
      subst hw
      left
      exact Cache.lookup_cons_self _ _ _
    · left
      simp only [Cache.promote, Cache.lookup] at h ⊢
      rw [List.find?_cons_of_neg _ (by simp [hk]), find?_eraseP_of_neg]
      · exact h
      · intro x hx
        simp only [decide_eq_true_eq] at hx
        simp only [decide_eq_false_iff_not, hx]
        exact hk
  | none =>
    have hk : ¬((loc, d) = k) := by
      intro e
      rw [e, h] at hl
      cases hl
    cases hh : http (timelineURL api_key loc d) with
    | error e =>
      rw [fetch_weather_miss_fault api_key http c loc d e hl hh]
      dsimp only
      left
      exact h
    | ok resp =>
      obtain ⟨b, hb⟩ := fetch_weather_miss_state api_key http c loc d resp hl hh
      rw [hb]
      dsimp only
      unfold Cache.insertNew CACHE_MAXSIZE
      rw [List.take_succ_cons]
      simp only [Cache.lookup] at h ⊢
      rw [List.find?_cons_of_neg _ (by simp [hk])]
      cases find?_take_or (fun p => decide (p.1 = k)) 499 c.entries with
      | inl hnone => right; rw [hnone]; rfl
      | inr heq => left; rw [heq]; exact h

/-- A canned parsed JSON payload used in concrete instantiations. -/
def bostonJson : Json := Json.obj [("temp", Json.num 15)]

/-- A canned 200 JSON upstream response. -/
def bostonResp : Response :=
  ⟨200, [("Content-Type", "application/json")], "\x7b\"temp\": 15\x7d", bostonJson⟩

/-- An upstream that always answers with the 200 JSON response. -/
def bostonHttp : String → Except TransportError Response :=
  fun _ => Except.ok bostonResp

/-- A canned 404 plain-text upstream response. -/
def notFoundResp : Response :=
  ⟨404, [("Content-Type", "text/plain")], "Not found", Json.null⟩

/-- An upstream that always answers 404. -/
def notFoundHttp : String → Except TransportError Response :=
  fun _ => Except.ok notFoundResp

/-- A canned 200 response carrying no Content-Type header at all. -/
def noHeaderResp : Response :=
  ⟨200, [], "oops", Json.null⟩

/-- An upstream that answers 200 without a Content-Type header. -/
def noHeaderHttp : String → Except TransportError Response :=
  fun _ => Except.ok noHeaderResp

/-- An upstream whose requests all fail at the transport level. -/
def faultHttp : String → Except TransportError Response :=
  fun _ => Except.error ⟨"connection refused"⟩

/-- Claim C1: once a lookup of (location, date) completes with value v,
a second call with the identical pair returns the identical v and issues
no upstream request, whatever the upstream would now answer; and any
later single fetch step either returns the stored value unchanged at
that key or evicts the entry, never altering it. -/
theorem C1_repeat_lookup_cached (api_key : String)
    (http : String → Except TransportError Response)
    (cache : Cache) (loc d : String) (v : Json) (c₁ : Cache) (us : List String)
    (h : fetch_weather api_key http cache loc d = (Except.ok v, c₁, us)) :
    (∀ http₂ : String → Except TransportError Response,
       (fetch_weather api_key http₂ c₁ loc d).1 = Except.ok v ∧
       (fetch_weather api_key http₂ c₁ loc d).2.2 = []) ∧
    (∀ (api₂ : String) (http₂ : String → Except TransportError Response)
       (loc₂ d₂ : String),
       ((fetch_weather api₂ http₂ c₁ loc₂ d₂).2.1).lookup (loc, d) = some v ∨
       ((fetch_weather api₂ http₂ c₁ loc₂ d₂).2.1).lookup (loc, d) = none) := by
  have hpost := fetch_weather_post_lookup api_key http cache loc d v c₁ us h
  constructor
  · intro http₂
    rw [fetch_weather_hit api_key http₂ c₁ loc d v hpost]
    exact ⟨rfl, rfl⟩
  · intro api₂ http₂ loc₂ d₂
    exact fetch_step_entry_cases api₂ http₂ c₁ loc₂ d₂ (loc, d) v hpost

theorem C1_witness :
    fetch_weather "K" bostonHttp emptyCache "Boston" "2024-01-01" =
      (Except.ok bostonJson, Cache.mk [(("Boston", "2024-01-01"), bostonJson)],
       [timelineURL "K" "Boston" "2024-01-01"]) ∧
    (fetch_weather "K" faultHttp
        (Cache.mk [(("Boston", "2024-01-01"), bostonJson)]) "Boston" "2024-01-01").1 =
      Except.ok bostonJson ∧
    (fetch_weather "K" faultHttp
        (Cache.mk [(("Boston", "2024-01-01"), bostonJson)]) "Boston" "2024-01-01").2.2 =
      ([] : List String) :=
  ⟨rfl,
   ((C1_repeat_lookup_cached "K" bostonHttp emptyCache "Boston" "2024-01-01"
      bostonJson (Cache.mk [(("Boston", "2024-01-01"), bostonJson)])
      [timelineURL "K" "Boston" "2024-01-01"] rfl).1 faultHttp).1,
   ((C1_repeat_lookup_cached "K" bostonHttp emptyCache "Boston" "2024-01-01"
      bostonJson (Cache.mk [(("Boston", "2024-01-01"), bostonJson)])
      [timelineURL "K" "Boston" "2024-01-01"] rfl).1 faultHttp).2⟩

/-- Claim C2: on a cache miss whose upstream response has HTTP status
200 and a Content-Type containing application/json, fetch_weather
returns the body parsed as JSON (the response.json() value). -/
theorem C2_json_success (api_key : String)
    (http : String → Except TransportError Response)
    (cache : Cache) (loc d : String) (resp : Response)
    (hmiss : cache.lookup (loc, d) = none)
    (hhttp : http (timelineURL api_key loc d) = Except.ok resp)
    (hstatus : resp.status_code = 200)
    (hct : substrIn "application/json" (headersGet resp.headers "Content-Type" "") = true) :
    (fetch_weather api_key http cache loc d).1 = Except.ok resp.json := by
  rw [fetch_weather_miss_ok api_key http cache loc d resp hmiss hhttp]
  dsimp only
  simp [hstatus, hct]

theorem C2_witness :
    Cache.lookup emptyCache ("Boston", "2024-01-01") = none ∧
    bostonHttp (timelineURL "K" "Boston" "2024-01-01") = Except.ok bostonResp ∧
    bostonResp.status_code = 200 ∧
    substrIn "application/json" (headersGet bostonResp.headers "Content-Type" "") = true ∧
    bostonResp.json = Json.obj [("temp", Json.num 15)] ∧
    (fetch_weather "K" bostonHttp emptyCache "Boston" "2024-01-01").1 =
      Except.ok bostonResp.json :=
  ⟨rfl, rfl, rfl, rfl, rfl,
   C2_json_success "K" bostonHttp emptyCache "Boston" "2024-01-01" bostonResp
     rfl rfl rfl rfl⟩

/-- Claim C3: on a cache miss whose upstream response fails the
200-and-JSON test, fetch_weather does not raise: it returns the record
with the raw body text under error and the status code under status. -/
theorem C3_error_record (api_key : String)
    (http : String → Except TransportError Response)
    (cache : Cache) (loc d : String) (resp : Response)
    (hmiss : cache.lookup (loc, d) = none)
    (hhttp : http (timelineURL api_key loc d) = Except.ok resp)
    (hcond : (resp.status_code == 200 &&
        substrIn "application/json" (headersGet resp.headers "Content-Type" "")) = false) :
    (fetch_weather api_key http cache loc d).1 =
      Except.ok (errorRecord resp.text resp.status_code) := by
  rw [fetch_weather_miss_ok api_key http cache loc d resp hmiss hhttp]
  dsimp only
  simp [hcond]

theorem C3_witness :
    Cache.lookup emptyCache ("Boston", "2024-01-01") = none ∧
    notFoundHttp (timelineURL "K" "Boston" "2024-01-01") = Except.ok notFoundResp ∧
    (notFoundResp.status_code == 200 &&
      substrIn "application/json" (headersGet notFoundResp.headers "Content-Type" "")) = false ∧
    errorRecord "Not found" 404 =
      Json.obj [("error", Json.str "Not found"), ("status", Json.num 404)] ∧
    (fetch_weather "K" notFoundHttp emptyCache "Boston" "2024-01-01").1 =
      Except.ok (errorRecord notFoundResp.text notFoundResp.status_code) :=
  ⟨rfl, rfl, rfl, rfl,
   C3_error_record "K" notFoundHttp emptyCache "Boston" "2024-01-01" notFoundResp
     rfl rfl rfl⟩

/-- Claim C9: when the upstream response carries no Content-Type header
at all, headers.get defaults to the empty string, application/json is
not contained in it, and fetch_weather returns an error record even for
HTTP status 200. -/
theorem C9_missing_content_type (api_key : String)
    (http : String → Except TransportError Response)
    (cache : Cache) (loc d : String) (resp : Response)
    (hmiss : cache.lookup (loc, d) = none)
    (hhttp : http (timelineURL api_key loc d) = Except.ok resp)
    (_hstatus : resp.status_code = 200)
    (hnohdr : resp.headers.find? (fun p => decide (p.1 = "Content-Type")) = none) :
    headersGet resp.headers "Content-Type" "" = "" ∧
    substrIn "application/json" "" = false ∧
    (fetch_weather api_key http cache loc d).1 =
      Except.ok (errorRecord resp.text resp.status_code) := by
  have hget : headersGet resp.headers "Content-Type" "" = "" := by
    unfold headersGet
    rw [hnohdr]
  refine ⟨hget, rfl, ?_⟩
  rw [fetch_weather_miss_ok api_key http cache loc d resp hmiss hhttp]
  dsimp only
  simp [hget, substrIn, substrInAux]

theorem C9_witness :
    Cache.lookup emptyCache ("Boston", "2024-01-01") = none ∧
    noHeaderHttp (timelineURL "K" "Boston" "2024-01-01") = Except.ok noHeaderResp ∧
    noHeaderResp.status_code = 200 ∧
    noHeaderResp.headers.find? (fun p => decide (p.1 = "Content-Type")) = none ∧
    (fetch_weather "K" noHeaderHttp emptyCache "Boston" "2024-01-01").1 =
      Except.ok (errorRecord noHeaderResp.text noHeaderResp.status_code) :=
  ⟨rfl, rfl, rfl, rfl,
   (C9_missing_content_type "K" noHeaderHttp emptyCache "Boston" "2024-01-01"
      noHeaderResp rfl rfl rfl rfl).2.2⟩

/-- Claim C10: a transport-level fault on a miss propagates and leaves
the cache exactly as it was, so no entry is stored for the pair; a
subsequent fetch of the same pair on that cache issues a fresh upstream
request whatever the upstream now does. -/
theorem C10_fault_not_cached (api_key : String)
    (http : String → Except TransportError Response)
    (cache : Cache) (loc d : String) (e : TransportError)
    (hmiss : cache.lookup (loc, d) = none)
    (hfault : http (timelineURL api_key loc d) = Except.error e) :
    fetch_weather api_key http cache loc d =
      (Except.error e, cache, [timelineURL api_key loc d]) ∧
    (∀ http₂ : String → Except TransportError Response,
       (fetch_weather api_key http₂ cache loc d).2.2 = [timelineURL api_key loc d]) := by
  refine ⟨fetch_weather_miss_fault api_key http cache loc d e hmiss hfault, ?_⟩
  intro http₂
  cases hh : http₂ (timelineURL api_key loc d) with
  | error e₂ =>
    rw [fetch_weather_miss_fault api_key http₂ cache loc d e₂ hmiss hh]
  | ok resp =>
    obtain ⟨b, hb⟩ := fetch_weather_miss_state api_key http₂ cache loc d resp hmiss hh
    rw [hb]

theorem C10_witness :
    Cache.lookup emptyCache ("Boston", "2024-01-01") = none ∧
    faultHttp (timelineURL "K" "Boston" "2024-01-01") =
      Except.error ⟨"connection refused"⟩ ∧
    fetch_weather "K" faultHttp emptyCache "Boston" "2024-01-01" =
      (Except.error ⟨"connection refused"⟩, emptyCache,
       [timelineURL "K" "Boston" "2024-01-01"]) ∧
    (fetch_weather "K" bostonHttp emptyCache "Boston" "2024-01-01").2.2 =
      [timelineURL "K" "Boston" "2024-01-01"] :=
  ⟨rfl, rfl,
   (C10_fault_not_cached "K" faultHttp emptyCache "Boston" "2024-01-01"
      ⟨"connection refused"⟩ rfl rfl).1,
   (C10_fault_not_cached "K" faultHttp emptyCache "Boston" "2024-01-01"
      ⟨"connection refused"⟩ rfl rfl).2 bostonHttp⟩

/-- Claim C6: on every cache miss, the single outbound request is to the
Visual Crossing timeline URL with the raw location and date interpolated
as path segments and exactly the query parameters unitGroup=metric,
include=days and key=<the credential read at process start>. -/
theorem C6_outbound_url (api_key : String)
    (http : String → Except TransportError Response)
    (cache : Cache) (loc d : String)
    (hmiss : cache.lookup (loc, d) = none) :
    (fetch_weather api_key http cache loc d).2.2 =
      ["https://weather.visualcrossing.com/VisualCrossingWebServices/rest/services/timeline/"
        ++ loc ++ "/" ++ d ++ "?unitGroup=metric&include=days&key=" ++ api_key] := by
  cases hh : http (timelineURL api_key loc d) with
  | error e =>
    rw [fetch_weather_miss_fault api_key http cache loc d e hmiss hh]
    simp [timelineURL]
  | ok resp =>
    obtain ⟨b, hb⟩ := fetch_weather_miss_state api_key http cache loc d resp hmiss hh
    rw [hb]
    simp [timelineURL]

theorem C6_witness :
    Cache.lookup emptyCache ("Boston", "2024-01-01") = none ∧
    (fetch_weather "K" bostonHttp emptyCache "Boston" "2024-01-01").2.2 =
      ["https://weather.visualcrossing.com/VisualCrossingWebServices/rest/services/timeline/"
        ++ "Boston" ++ "/" ++ "2024-01-01" ++ "?unitGroup=metric&include=days&key=" ++ "K"] :=
  ⟨rfl, C6_outbound_url "K" bostonHttp emptyCache "Boston" "2024-01-01" rfl⟩

/-- Claim C7: whenever the underlying lookup completes (success payload
or error record), the endpoint handler answers with its own HTTP status
200, the lookup value as body; an upstream failure shows up only inside
the body, which carries an error field. -/
theorem C7_always_http_200 (api_key : String)
    (http : String → Except TransportError Response)
    (cache : Cache) (loc d : String) (v : Json)
    (h : (fetch_weather api_key http cache loc d).1 = Except.ok v) :
    (get_weather api_key http cache loc d).1 = Except.ok (200, v) ∧
    (∀ (t : String) (s : Nat), v = errorRecord t s → Json.hasKey v "error" = true) := by
  constructor
  · rcases hf : fetch_weather api_key http cache loc d with ⟨r, c₂, t₂⟩
    rw [hf] at h
    dsimp only at h
    subst h
    simp [get_weather, hf, FASTAPI_DEFAULT_STATUS]
  · intro t s hv
    subst hv
    simp [errorRecord, Json.hasKey]

theorem C7_witness :
    (fetch_weather "K" bostonHttp emptyCache "Boston" "2024-01-01").1 =
      Except.ok bostonJson ∧
    (get_weather "K" bostonHttp emptyCache "Boston" "2024-01-01").1 =
      Except.ok (200, bostonJson) ∧
    (fetch_weather "K" notFoundHttp emptyCache "Boston" "2024-01-01").1 =
      Except.ok (errorRecord "Not found" 404) ∧
    (get_weather "K" notFoundHttp emptyCache "Boston" "2024-01-01").1 =
      Except.ok (200, errorRecord "Not found" 404) ∧
    Json.hasKey (errorRecord "Not found" 404) "error" = true :=
  ⟨rfl,
   (C7_always_http_200 "K" bostonHttp emptyCache "Boston" "2024-01-01" bostonJson rfl).1,
   rfl,
   (C7_always_http_200 "K" notFoundHttp emptyCache "Boston" "2024-01-01"
      (errorRecord "Not found" 404) rfl).1,
   (C7_always_http_200 "K" notFoundHttp emptyCache "Boston" "2024-01-01"
      (errorRecord "Not found" 404) rfl).2 "Not found" 404 rfl⟩

/-- Claim C8: the root handler returns the constant message body with
status 200 in every cache state, its result does not depend on the
cache, and it leaves the cache unchanged. -/
theorem C8_root_constant :
    (∀ cache : Cache,
       root cache = ((200, Json.obj [("message", Json.str "API is running")]), cache)) ∧
    (∀ c₁ c₂ : Cache, (root c₁).1 = (root c₂).1) ∧
    (∀ cache : Cache, (root cache).2 = cache) :=
  ⟨fun _ => rfl, fun _ _ => rfl, fun _ => rfl⟩

/-- Claim C5: cache keys are compared by exact string equality with no
normalization: a cache holding only the key (Boston, d) answers the
lookup of (Boston, d) with its stored value, misses (boston, d), and a
fetch for (boston, d) on that cache goes upstream. -/
theorem C5_case_sensitive_keys (d : String) (v : Json) :
    (Cache.mk [(("Boston", d), v)]).lookup ("Boston", d) = some v ∧
    (Cache.mk [(("Boston", d), v)]).lookup ("boston", d) = none ∧
    ∀ (api_key : String) (http : String → Except TransportError Response),
      (fetch_weather api_key http (Cache.mk [(("Boston", d), v)]) "boston" d).2.2 =
        [timelineURL api_key "boston" d] := by
  have hs : ("Boston" : String) ≠ "boston" := by decide
  have hne : (("Boston", d) : CacheKey) ≠ ("boston", d) := by
    intro he
    exact hs (congrArg Prod.fst he)
  have hm : (Cache.mk [(("Boston", d), v)]).lookup ("boston", d) = none := by
    unfold Cache.lookup
    rw [List.find?_cons_of_neg _ (by simp [hne])]
    rfl
  refine ⟨Cache.lookup_cons_self _ _ _, hm, ?_⟩
  intro api_key http
  cases hh : http (timelineURL api_key "boston" d) with
  | error e =>
    rw [fetch_weather_miss_fault api_key http _ "boston" d e hm hh]
  | ok resp =>
    obtain ⟨b, hb⟩ := fetch_weather_miss_state api_key http _ "boston" d resp hm hh
    rw [hb]

/-- Claim C4: the cache starts empty and a fetch step keeps it at no
more than 500 entries, so it never holds more than 500 distinct keys; a
completed miss on a full cache of 500 entries stores the new key in the
most-recently-used slot and drops exactly the last entry of the
recency-ordered list, the least-recently-used one, leaving 500 entries;
and a hit moves the entry to the most-recently-used slot. -/
theorem C4_lru_eviction :
    emptyCache.entries.length ≤ 500 ∧
    (∀ (api_key : String) (http : String → Except TransportError Response)
       (c : Cache) (loc d : String),
       c.entries.length ≤ 500 →
       ((fetch_weather api_key http c loc d).2.1).entries.length ≤ 500) ∧
    (∀ (api_key : String) (http : String → Except TransportError Response)
       (c : Cache) (loc d : String) (v : Json) (c₁ : Cache) (us : List String),
       c.entries.length = 500 →
       c.lookup (loc, d) = none →
       fetch_weather api_key http c loc d = (Except.ok v, c₁, us) →
       c₁.entries = ((loc, d), v) :: c.entries.dropLast ∧
       c₁.entries.length = 500) ∧
    (∀ (api_key : String) (http : String → Except TransportError Response)
       (c : Cache) (loc d : String) (v : Json),
       c.lookup (loc, d) = some v →
       ((fetch_weather api_key http c loc d).2.1).entries.head? =
         some ((loc, d), v)) := by
  refine ⟨by simp [emptyCache], ?_, ?_, ?_⟩
  · intro api_key http c loc d hlen
    cases hl : c.lookup (loc, d) with
    | some w =>
      rw [fetch_weather_hit api_key http c loc d w hl]
      dsimp only
      simp only [Cache.promote, List.length_cons]
      obtain ⟨pr, hfind, _⟩ := Option.map_eq_some'.mp hl
      have hmem := List.mem_of_find?_eq_some hfind
      have hpa := List.find?_some hfind
      rw [List.length_eraseP_add_one hmem hpa]
      exact hlen
    | none =>
      cases hh : http (timelineURL api_key loc d) with
      | error e =>
        rw [fetch_weather_miss_fault api_key http c loc d e hl hh]
        exact hlen
      | ok resp =>
        obtain ⟨b, hb⟩ := fetch_weather_miss_state api_key http c loc d resp hl hh
        rw [hb]
        dsimp only
        simp only [Cache.insertNew, CACHE_MAXSIZE, List.length_take]
        omega
  · intro api_key http c loc d v c₁ us hlen hl hfetch
    cases hh : http (timelineURL api_key loc d) with
    | error e =>
      rw [fetch_weather_miss_fault api_key http c loc d e hl hh] at hfetch
      exact absurd (congrArg Prod.fst hfetch) (by simp)
    | ok resp =>
      obtain ⟨b, hb⟩ := fetch_weather_miss_state api_key http c loc d resp hl hh
      rw [hb] at hfetch
      simp only [Prod.mk.injEq, Except.ok.injEq] at hfetch
      obtain ⟨h1, h2, _⟩ := hfetch
      subst h1
      subst h2
      simp only [Cache.insertNew, CACHE_MAXSIZE]
      rw [List.take_succ_cons]
      constructor
      · rw [List.dropLast_eq_take, hlen]
      · simp [List.length_take, hlen]
  · intro api_key http c loc d v hl
    rw [fetch_weather_hit api_key http c loc d v hl]
    dsimp only
    simp [Cache.promote]

/-- A full cache of 500 entries, used to instantiate the eviction
behaviour on a concrete input. -/
def cache500 : Cache := ⟨List.replicate 500 (("k", "k"), Json.null)⟩

/-- The cache500 state after a completed miss for (Boston, 2024-01-01):
the new entry in front, the last old entry dropped. -/
def cache500after : Cache :=
  ⟨(("Boston", "2024-01-01"), bostonJson) :: List.replicate 499 (("k", "k"), Json.null)⟩

/-- A two-entry cache in which (Boston, 2024-01-01) is the
least-recently-used entry, used to instantiate recency promotion. -/
def hitCache : Cache :=
  ⟨[(("A", "a"), Json.null), (("Boston", "2024-01-01"), bostonJson)]⟩

set_option maxRecDepth 4000 in
theorem C4_witness :
    (emptyCache.entries.length ≤ 500 ∧
      ((fetch_weather "K" bostonHttp emptyCache "Boston" "2024-01-01").2.1).entries.length ≤ 500) ∧
    (cache500.entries.length = 500 ∧
      cache500.lookup ("Boston", "2024-01-01") = none ∧
      fetch_weather "K" bostonHttp cache500 "Boston" "2024-01-01" =
        (Except.ok bostonJson, cache500after, [timelineURL "K" "Boston" "2024-01-01"]) ∧
      cache500after.entries =
        (("Boston", "2024-01-01"), bostonJson) :: cache500.entries.dropLast ∧
      cache500after.entries.length = 500) ∧
    (hitCache.lookup ("Boston", "2024-01-01") = some bostonJson ∧
      ((fetch_weather "K" bostonHttp hitCache "Boston" "2024-01-01").2.1).entries.head? =
        some (("Boston", "2024-01-01"), bostonJson)) := by
  have h1 : cache500.entries.length = 500 := by simp [cache500]
  have h2 : cache500.lookup ("Boston", "2024-01-01") = none := by rfl
  have h3 : fetch_weather "K" bostonHttp cache500 "Boston" "2024-01-01" =
      (Except.ok bostonJson, cache500after, [timelineURL "K" "Boston" "2024-01-01"]) := by rfl
  have h4 := (C4_lru_eviction.2.2.1 "K" bostonHttp cache500 "Boston" "2024-01-01"
      bostonJson cache500after [timelineURL "K" "Boston" "2024-01-01"] h1 h2 h3)
  refine ⟨⟨by decide, C4_lru_eviction.2.1 "K" bostonHttp emptyCache "Boston" "2024-01-01" (by decide)⟩,
    ⟨h1, h2, h3, h4.1, h4.2⟩,
    ⟨rfl, C4_lru_eviction.2.2.2 "K" bostonHttp hitCache "Boston" "2024-01-01" bostonJson rfl⟩⟩
